import Mathlib

/-!
Shallow embedding of the order-creation and fulfillment workflow of the
digital-services shop backend (src/server/src/handlers/orders.ts, with the
data model of src/server/src/db/schema.ts and src/server/src/schema.ts).

Modelling conventions:
* decimal amounts (numeric columns, parsed with parseFloat in the handlers)
  are modelled as exact rationals `Rat`;
* timestamps are modelled as rational instants (`now` is passed explicitly
  where the handler calls `new Date()`); the created_at/updated_at columns,
  which no verified property mentions, are not modelled;
* the database is a record of row lists; an `insert` appends, an `update`
  maps over the rows matching the `where` clause;
* a handler is a function `... → St → St × Except OrderError Order`: the
  source wraps nothing in a transaction, so a thrown error aborts with
  whatever mutations already happened — the returned state on `.error` is
  the state at the moment of the throw.
-/

namespace Shop

abbrev Money := Rat

inductive CouponType
  | percentage
  | fixed_amount
deriving DecidableEq, Repr

inductive OrderStatus
  | pending
  | processing
  | completed
  | cancelled
  | refunded
deriving DecidableEq, Repr

inductive PaymentStatus
  | pending
  | completed
  | failed
  | refunded
deriving DecidableEq, Repr

/-- A products row (columns used by the order workflow). `stock_quantity`
is nullable: `none` means the product is not stock-tracked. -/
structure Product where
  id : Nat
  price : Money
  is_active : Bool
  stock_quantity : Option Int
deriving DecidableEq, Repr

/-- A coupons row. -/
structure Coupon where
  id : Nat
  code : String
  ctype : CouponType
  value : Money
  minimum_order_amount : Option Money
  usage_limit : Option Nat
  used_count : Nat
  is_active : Bool
  expires_at : Option Rat
deriving DecidableEq, Repr

/-- An orders row. -/
structure Order where
  id : Nat
  user_id : Nat
  total_amount : Money
  discount_amount : Money
  final_amount : Money
  coupon_id : Option Nat
  status : OrderStatus
  payment_status : PaymentStatus
deriving DecidableEq, Repr

/-- An order_items row (the serial id column is not modelled; rows are
identified by their position). -/
structure OrderItem where
  order_id : Nat
  product_id : Nat
  quantity : Nat
  unit_price : Money
  total_price : Money
deriving DecidableEq, Repr

/-- The database state seen by the order workflow. Users are reduced to
their ids (only existence is checked). `nextOrderId` is the serial
counter of the orders table. -/
structure St where
  users : List Nat
  products : List Product
  coupons : List Coupon
  orders : List Order
  orderItems : List OrderItem
  nextOrderId : Nat
deriving DecidableEq, Repr

/-- One line of CreateOrderInput.items. -/
structure OrderItemInput where
  product_id : Nat
  quantity : Nat
  price : Money
deriving DecidableEq, Repr

/-- CreateOrderInput of src/server/src/schema.ts. -/
structure CreateOrderInput where
  user_id : Nat
  items : List OrderItemInput
  coupon_code : Option String
deriving DecidableEq, Repr

/-- The distinct errors thrown by the order handlers. `emptyValuesInsert`
is the error drizzle-orm's `values()` raises when called with an empty
list (reached by `createOrder` when `input.items` is empty). -/
inductive OrderError
  | userNotFound
  | productNotFound (product_id : Nat)
  | priceMismatch (product_id : Nat)
  | insufficientStock (product_id : Nat)
  | invalidCoupon
  | couponExpired
  | couponUsageLimitExceeded
  | minimumOrderNotMet
  | emptyValuesInsert
  | orderNotFound
  | cannotCancelCompletedOrRefunded
  | orderAlreadyCancelled
deriving DecidableEq, Repr

/-- `select from users where id = uid limit 1`. -/
def findUser (st : St) (uid : Nat) : Option Nat :=
  st.users.find? (fun u => u == uid)

/-- `select from products where id = pid and is_active = true limit 1`. -/
def findActiveProduct (st : St) (pid : Nat) : Option Product :=
  st.products.find? (fun p => p.id == pid && p.is_active)

/-- `select from products where id = pid limit 1` (no active filter;
used by the stock update loops). -/
def findProduct (st : St) (pid : Nat) : Option Product :=
  st.products.find? (fun p => p.id == pid)

/-- `select from coupons where code = code and is_active = true limit 1`. -/
def findActiveCoupon (st : St) (code : String) : Option Coupon :=
  st.coupons.find? (fun c => c.code == code && c.is_active)

/-- `select from orders where id = id limit 1`. -/
def findOrderById (st : St) (id : Nat) : Option Order :=
  st.orders.find? (fun o => o.id == id)

/-- An entry of the handler's `validatedItems` array. -/
structure VItem where
  product_id : Nat
  quantity : Nat
  unit_price : Money
  total_price : Money
deriving DecidableEq, Repr

/-- `product[0].stock_quantity !== null && product[0].stock_quantity < item.quantity`. -/
def stockShort : Option Int → Nat → Bool
  | some s, q => decide (s < (q : Int))
  | none, _ => false

/-- The per-line validation loop of `createOrder` (orders.ts lines 30-64):
product must exist and be active, the client price must match the catalog
price within 0.01 absolute, and a non-null stock must cover the quantity;
the first violation aborts. On success it returns the accumulated
`totalAmount` and the `validatedItems` list. -/
def validateItems (st : St) : List OrderItemInput → Except OrderError (Money × List VItem)
  | [] => .ok (0, [])
  | item :: rest =>
    match findActiveProduct st item.product_id with
    | none => .error (.productNotFound item.product_id)
    | some p =>
      if |p.price - item.price| > 1 / 100 then
        .error (.priceMismatch item.product_id)
      else if stockShort p.stock_quantity item.quantity then
        .error (.insufficientStock item.product_id)
      else
        match validateItems st rest with
        | .error e => .error e
        | .ok (t, vs) =>
          .ok (item.price * (item.quantity : Money) + t,
               { product_id := item.product_id, quantity := item.quantity,
                 unit_price := item.price,
                 total_price := item.price * (item.quantity : Money) } :: vs)

/-- `couponData.expires_at && new Date() > couponData.expires_at`. -/
def couponExpiredCheck (now : Rat) : Option Rat → Bool
  | some e => decide (e < now)
  | none => false

/-- `couponData.usage_limit && couponData.used_count >= couponData.usage_limit`:
JavaScript truthiness makes a limit of 0 behave like no limit. -/
def usageExceeded : Option Nat → Nat → Bool
  | some l, used => decide (l ≠ 0 ∧ l ≤ used)
  | none, _ => false

/-- `couponData.minimum_order_amount && totalAmount < parseFloat(...)`:
the column is numeric-as-text, so any non-null value is truthy. -/
def belowMinimum : Option Money → Money → Bool
  | some m, total => decide (total < m)
  | none, _ => false

/-- The pre-clamp discount of `createOrder` (orders.ts lines 101-107):
percentage of the total, or the flat coupon value. -/
def couponBase : CouponType → Money → Money → Money
  | .percentage, value, total => total * value / 100
  | .fixed_amount, value, _ => value

/-- The coupon branch of `createOrder` (orders.ts lines 70-115): resolve an
active coupon by code, check expiry, usage limit and minimum order amount,
then compute the discount (percentage of the total, or the flat value)
clamped so it never exceeds the total. Returns the discount and the coupon id. -/
def applyCoupon (st : St) (now : Rat) (code : String) (total : Money) :
    Except OrderError (Money × Nat) :=
  match findActiveCoupon st code with
  | none => .error .invalidCoupon
  | some c =>
    if couponExpiredCheck now c.expires_at then .error .couponExpired
    else if usageExceeded c.usage_limit c.used_count then .error .couponUsageLimitExceeded
    else if belowMinimum c.minimum_order_amount total then .error .minimumOrderNotMet
    else
      .ok (if couponBase c.ctype c.value total > total then total
           else couponBase c.ctype c.value total, c.id)

/-- `if (input.coupon_code) { ... }`: the branch runs only when the code is
present and non-empty (an empty string is falsy in JavaScript). -/
def couponPhase (st : St) (now : Rat) (couponCode : Option String) (total : Money) :
    Except OrderError (Money × Option Nat) :=
  match couponCode with
  | none => .ok (0, none)
  | some code =>
    if code = "" then .ok (0, none)
    else
      match applyCoupon st now code total with
      | .error e => .error e
      | .ok (d, cid) => .ok (d, some cid)

/-- `insert into orders ... returning`: appends the row and advances the
serial counter. -/
def insertOrder (st : St) (o : Order) : St :=
  { st with orders := st.orders ++ [o], nextOrderId := st.nextOrderId + 1 }

/-- `insert into order_items values (...)`. -/
def insertOrderItems (st : St) (vs : List OrderItem) : St :=
  { st with orderItems := st.orderItems ++ vs }

/-- `update coupons set used_count = used_count + 1 where id = cid`. -/
def incrementCouponUsage (st : St) (cid : Nat) : St :=
  { st with coupons := st.coupons.map (fun c =>
      if c.id == cid then { c with used_count := c.used_count + 1 } else c) }

/-- `update products set stock_quantity = v where id = pid`. -/
def setStock (st : St) (pid : Nat) (v : Int) : St :=
  { st with products := st.products.map (fun p =>
      if p.id == pid then { p with stock_quantity := some v } else p) }

/-- One iteration of the stock-decrement loop of `createOrder` (orders.ts
lines 157-170): re-read the product and, when its stock is non-null, set it
to the read value minus the ordered quantity. The `none` product case is
unreachable (the product was found during validation and no product row is
removed in between); it is modelled as a no-op. -/
def decrementStock (st : St) (v : VItem) : St :=
  match findProduct st v.product_id with
  | some p =>
    match p.stock_quantity with
    | some s => setStock st v.product_id (s - (v.quantity : Int))
    | none => st
  | none => st

/-- The stock-decrement loop over `validatedItems`. -/
def decrementStocks (st : St) (vs : List VItem) : St :=
  vs.foldl decrementStock st

/-- `createOrder` of src/server/src/handlers/orders.ts: validate the user,
each item line and the optional coupon; then insert the order header,
insert the line items, increment the coupon's used_count, and decrement the
stocks. The source has no transaction, so each error returns the state at
the moment of the throw. -/
def createOrder (now : Rat) (input : CreateOrderInput) (st : St) :
    St × Except OrderError Order :=
  match findUser st input.user_id with
  | none => (st, .error .userNotFound)
  | some _ =>
    match validateItems st input.items with
    | .error e => (st, .error e)
    | .ok (totalAmount, vitems) =>
      match couponPhase st now input.coupon_code totalAmount with
      | .error e => (st, .error e)
      | .ok (discountAmount, couponId) =>
        let finalAmount := totalAmount - discountAmount
        let order : Order :=
          { id := st.nextOrderId, user_id := input.user_id,
            total_amount := totalAmount, discount_amount := discountAmount,
            final_amount := finalAmount, coupon_id := couponId,
            status := .pending, payment_status := .pending }
        let st1 := insertOrder st order
        if vitems.isEmpty then
          (st1, .error .emptyValuesInsert)
        else
          let st2 := insertOrderItems st1 (vitems.map (fun v =>
            { order_id := order.id, product_id := v.product_id,
              quantity := v.quantity, unit_price := v.unit_price,
              total_price := v.total_price }))
          let st3 :=
            match couponId with
            | some cid => incrementCouponUsage st2 cid
            | none => st2
          let st4 := decrementStocks st3 vitems
          (st4, .ok order)

/-- The `where` conditions built by `cancelOrder`: always `id = id`, plus
`user_id = userId` only when `userId` is truthy (a caller-supplied 0 is
falsy in JavaScript, so it adds no ownership filter). -/
def cancelMatches (id : Nat) (userId : Option Nat) (o : Order) : Bool :=
  o.id == id && (match userId with
    | some u => u == 0 || o.user_id == u
    | none => true)

/-- One iteration of the stock-restore loop of `cancelOrder` (orders.ts
lines 529-542): re-read the product and, when its stock is non-null, set it
to the read value plus the item's quantity. -/
def restoreStock (st : St) (it : OrderItem) : St :=
  match findProduct st it.product_id with
  | some p =>
    match p.stock_quantity with
    | some s => setStock st it.product_id (s + (it.quantity : Int))
    | none => st
  | none => st

/-- The stock-restore loop over the order's items. -/
def restoreStocks (st : St) (items : List OrderItem) : St :=
  items.foldl restoreStock st

/-- `cancelOrder` of src/server/src/handlers/orders.ts: find the order
(with the optional ownership filter), refuse completed/refunded and
already-cancelled orders, flip the status to cancelled, and restore the
stock of every item of the order. -/
def cancelOrder (id : Nat) (userId : Option Nat) (st : St) :
    St × Except OrderError Order :=
  match st.orders.find? (cancelMatches id userId) with
  | none => (st, .error .orderNotFound)
  | some current =>
    if current.status = .completed ∨ current.status = .refunded then
      (st, .error .cannotCancelCompletedOrRefunded)
    else if current.status = .cancelled then
      (st, .error .orderAlreadyCancelled)
    else
      let st1 : St := { st with orders := st.orders.map (fun o =>
        if cancelMatches id userId o then { o with status := .cancelled } else o) }
      let items := st1.orderItems.filter (fun it => it.order_id == id)
      let st2 := restoreStocks st1 items
      (st2, .ok { current with status := OrderStatus.cancelled })

/-- `updateOrderStatus`: an unconditional `update orders set status = s
where id = id returning`, failing only when no row matches. -/
def updateOrderStatus (id : Nat) (status : OrderStatus) (st : St) :
    St × Except OrderError Order :=
  match findOrderById st id with
  | none => (st, .error .orderNotFound)
  | some o =>
    ({ st with orders := st.orders.map (fun o' =>
        if o'.id == id then { o' with status := status } else o') },
     .ok { o with status := status })

/-- `updatePaymentStatus`: the same unconditional setter for payment_status. -/
def updatePaymentStatus (id : Nat) (payment : PaymentStatus) (st : St) :
    St × Except OrderError Order :=
  match findOrderById st id with
  | none => (st, .error .orderNotFound)
  | some o =>
    ({ st with orders := st.orders.map (fun o' =>
        if o'.id == id then { o' with payment_status := payment } else o') },
     .ok { o with payment_status := payment })

/-- The stock of product `pid` as read back from the store. -/
def stockOf (st : St) (pid : Nat) : Option Int :=
  (findProduct st pid).bind (fun p => p.stock_quantity)

/-- The used_count of coupon `cid` as read back from the store. -/
def usedCountOf (st : St) (cid : Nat) : Option Nat :=
  (st.coupons.find? (fun c => c.id == cid)).map (fun c => c.used_count)

/-- The status of order `id` as read back from the store. -/
def statusOf (st : St) (id : Nat) : Option OrderStatus :=
  (findOrderById st id).map (fun o => o.status)

/-- Total quantity of product `pid` over the input lines. -/
def qtyOf (items : List OrderItemInput) (pid : Nat) : Nat :=
  (items.map (fun i => if i.product_id == pid then i.quantity else 0)).sum

/-- Total quantity of product `pid` over stored order items. -/
def itemQtyOf (items : List OrderItem) (pid : Nat) : Nat :=
  (items.map (fun i => if i.product_id == pid then i.quantity else 0)).sum

/-- Total quantity of product `pid` over validated items. -/
def vQtyOf (items : List VItem) (pid : Nat) : Nat :=
  (items.map (fun v => if v.product_id == pid then v.quantity else 0)).sum

end Shop

namespace Shop

/-- The order header row built by `createOrder`. -/
def mkOrder (st : St) (input : CreateOrderInput) (totalAmount discountAmount : Money)
    (couponId : Option Nat) : Order :=
  { id := st.nextOrderId, user_id := input.user_id,
    total_amount := totalAmount, discount_amount := discountAmount,
    final_amount := totalAmount - discountAmount, coupon_id := couponId,
    status := .pending, payment_status := .pending }

/-- The order_items rows built by `createOrder`. -/
def mkRows (oid : Nat) (vitems : List VItem) : List OrderItem :=
  vitems.map (fun v =>
    { order_id := oid, product_id := v.product_id,
      quantity := v.quantity, unit_price := v.unit_price,
      total_price := v.total_price })

/-- The state after `cancelOrder` flips the matching orders to cancelled. -/
def cancelFlip (id : Nat) (userId : Option Nat) (st : St) : St :=
  { st with orders := st.orders.map (fun o =>
      if cancelMatches id userId o then { o with status := .cancelled } else o) }

/-- The errors raised by the validation phase of `createOrder` (claim C1). -/
def isValidationError : OrderError → Bool
  | .userNotFound => true
  | .productNotFound _ => true
  | .priceMismatch _ => true
  | .insufficientStock _ => true
  | .invalidCoupon => true
  | .couponExpired => true
  | .couponUsageLimitExceeded => true
  | .minimumOrderNotMet => true
  | _ => false

/-- The per-line validation of C6, written from the claim: (a) the product
exists and is active, else NotFound; (b) the client price equals the
product's current price within an absolute tolerance of 0.01, else
PriceMismatch; (c) if stock_quantity is non-null it must be at least the
requested quantity, else InsufficientStock. -/
def specItemError (st : St) (i : OrderItemInput) : Option OrderError :=
  match findActiveProduct st i.product_id with
  | none => some (.productNotFound i.product_id)
  | some p =>
    if |p.price - i.price| > 1 / 100 then some (.priceMismatch i.product_id)
    else
      match p.stock_quantity with
      | some s => if (i.quantity : Int) ≤ s then none else some (.insufficientStock i.product_id)
      | none => none

/-- The first violated per-line check over the items in input order (C6). -/
def firstViolation (st : St) : List OrderItemInput → Option OrderError
  | [] => none
  | i :: rest =>
    match specItemError st i with
    | some e => some e
    | none => firstViolation st rest

/-- The discount reference function of C2, amended: the percentage discount
is also clamped at the total (the code clamps both coupon types). -/
def referenceDiscount : CouponType → Money → Money → Money
  | .percentage, v, total => min (total * v / 100) total
  | .fixed_amount, v, total => min v total

/-- The structured result of validateCoupon (coupons.ts lines 35-40). -/
structure CouponValidation where
  valid : Bool
  coupon : Option Coupon
  discount : Option Money
  error : Option String
deriving DecidableEq, Repr

/-- Usage-limit check as the spec words it (section 4.1 step 4c): the limit
applies whenever it is set. -/
def specUsageExceeded : Option Nat → Nat → Bool
  | some l, used => decide (l ≤ used)
  | none, _ => false

/-- Modelled from the spec: the body of `validateCoupon` in
src/server/src/handlers/coupons.ts is a placeholder declaration
("This is a placeholder declaration! Real code should be implemented
here."), so this definition follows spec section 4.4: the five checks of
section 4.1 step 4 — existence and active flag, expiry, usage limit,
minimum order amount, and the clamped discount — returning a structured
result instead of throwing. -/
def validateCoupon (st : St) (now : Rat) (code : String) (orderAmount : Money) :
    CouponValidation :=
  match findActiveCoupon st code with
  | none =>
    { valid := false, coupon := none, discount := none,
      error := some "Invalid coupon code" }
  | some c =>
    if couponExpiredCheck now c.expires_at then
      { valid := false, coupon := none, discount := none,
        error := some "Coupon has expired" }
    else if specUsageExceeded c.usage_limit c.used_count then
      { valid := false, coupon := none, discount := none,
        error := some "Coupon usage limit exceeded" }
    else if belowMinimum c.minimum_order_amount orderAmount then
      { valid := false, coupon := none, discount := none,
        error := some "Minimum order amount not met" }
    else
      { valid := true, coupon := some c,
        discount := some (min (couponBase c.ctype c.value orderAmount) orderAmount),
        error := none }

theorem find?_map_pres {α : Type} (f : α → α) (p : α → Bool)
    (hf : ∀ a, p (f a) = p a) :
    ∀ l : List α, (l.map f).find? p = (l.find? p).map f := by
  intro l
  induction l with
  | nil => rfl
  | cons a t ih =>
    by_cases h : p a = true
    · rw [List.map_cons, List.find?_cons_of_pos _ (by rw [hf]; exact h),
        List.find?_cons_of_pos _ h]
      rfl
    · rw [List.map_cons,
        List.find?_cons_of_neg _ (by rw [hf]; simpa using h),
        List.find?_cons_of_neg _ (by simpa using h), ih]

theorem restoreStock_orders (st : St) (it : OrderItem) :
    (restoreStock st it).orders = st.orders := by
  unfold restoreStock
  split <;> first | rfl | (split <;> rfl)

theorem restoreStock_orderItems (st : St) (it : OrderItem) :
    (restoreStock st it).orderItems = st.orderItems := by
  unfold restoreStock
  split <;> first | rfl | (split <;> rfl)

theorem restoreStock_coupons (st : St) (it : OrderItem) :
    (restoreStock st it).coupons = st.coupons := by
  unfold restoreStock
  split <;> first | rfl | (split <;> rfl)

theorem restoreStocks_orders (items : List OrderItem) :
    ∀ st : St, (restoreStocks st items).orders = st.orders := by
  induction items with
  | nil => intro st; rfl
  | cons it t ih =>
    intro st
    show (restoreStocks (restoreStock st it) t).orders = st.orders
    rw [ih, restoreStock_orders]

theorem decrementStock_orders (st : St) (v : VItem) :
    (decrementStock st v).orders = st.orders := by
  unfold decrementStock
  split <;> first | rfl | (split <;> rfl)

theorem decrementStock_orderItems (st : St) (v : VItem) :
    (decrementStock st v).orderItems = st.orderItems := by
  unfold decrementStock
  split <;> first | rfl | (split <;> rfl)

theorem decrementStock_coupons (st : St) (v : VItem) :
    (decrementStock st v).coupons = st.coupons := by
  unfold decrementStock
  split <;> first | rfl | (split <;> rfl)

theorem decrementStocks_coupons (vs : List VItem) :
    ∀ st : St, (decrementStocks st vs).coupons = st.coupons := by
  induction vs with
  | nil => intro st; rfl
  | cons v t ih =>
    intro st
    show (decrementStocks (decrementStock st v) t).coupons = st.coupons
    rw [ih, decrementStock_coupons]

theorem decrementStocks_orderItems (vs : List VItem) :
    ∀ st : St, (decrementStocks st vs).orderItems = st.orderItems := by
  induction vs with
  | nil => intro st; rfl
  | cons v t ih =>
    intro st
    show (decrementStocks (decrementStock st v) t).orderItems = st.orderItems
    rw [ih, decrementStock_orderItems]

theorem stockOf_products_eq {st st' : St} (h : st.products = st'.products) (pid : Nat) :
    stockOf st pid = stockOf st' pid := by
  unfold stockOf findProduct
  rw [h]

theorem stockOf_setStock_same (st : St) (pid : Nat) (v : Int)
    (h : findProduct st pid ≠ none) :
    stockOf (setStock st pid v) pid = some v := by
  unfold stockOf findProduct setStock at *
  dsimp only
  rw [find?_map_pres _ _ (fun p => by by_cases hp : p.id == pid <;> simp [hp])]
  cases hfind : st.products.find? (fun p => p.id == pid) with
  | none => exact absurd hfind h
  | some p =>
    have hp : p.id = pid := by simpa using List.find?_some hfind
    simp [hp]

theorem stockOf_setStock_other (st : St) (pid pid' : Nat) (v : Int)
    (h : pid' ≠ pid) :
    stockOf (setStock st pid v) pid' = stockOf st pid' := by
  unfold stockOf findProduct setStock
  dsimp only
  rw [find?_map_pres _ _ (fun p => by by_cases hp : p.id == pid <;> simp [hp])]
  cases hfind : st.products.find? (fun p => p.id == pid') with
  | none => rfl
  | some p =>
    have hp : p.id = pid' := by simpa using List.find?_some hfind
    have hne : p.id ≠ pid := by rw [hp]; exact h
    simp [hne]

theorem stockOf_some_findProduct {st : St} {pid : Nat} {s : Int}
    (h : stockOf st pid = some s) :
    ∃ p, findProduct st pid = some p ∧ p.stock_quantity = some s := by
  unfold stockOf at h
  cases hf : findProduct st pid with
  | none => rw [hf] at h; simp at h
  | some p =>
    rw [hf] at h
    exact ⟨p, rfl, by simpa using h⟩

theorem stockOf_decrementStock_same (st : St) (v : VItem) {s : Int}
    (h : stockOf st v.product_id = some s) :
    stockOf (decrementStock st v) v.product_id = some (s - (v.quantity : Int)) := by
  obtain ⟨p, hp, hps⟩ := stockOf_some_findProduct h
  unfold decrementStock
  simp only [hp, hps]
  exact stockOf_setStock_same st v.product_id _ (by rw [hp]; exact fun hc => by cases hc)

theorem stockOf_decrementStock_other (st : St) (v : VItem) (pid : Nat)
    (h : pid ≠ v.product_id) :
    stockOf (decrementStock st v) pid = stockOf st pid := by
  unfold decrementStock
  split
  · split
    · exact stockOf_setStock_other st v.product_id pid _ h
    · rfl
  · rfl

theorem stockOf_decrementStocks (pid : Nat) :
    ∀ (vs : List VItem) (st : St) (s : Int),
      stockOf st pid = some s →
      stockOf (decrementStocks st vs) pid = some (s - (vQtyOf vs pid : Int)) := by
  intro vs
  induction vs with
  | nil =>
    intro st s h
    simpa [decrementStocks, vQtyOf] using h
  | cons v t ih =>
    intro st s h
    show stockOf (decrementStocks (decrementStock st v) t) pid = _
    by_cases hv : v.product_id = pid
    · subst hv
      have h1 := stockOf_decrementStock_same st v h
      have h2 := ih (decrementStock st v) _ h1
      rw [h2]
      have : vQtyOf (v :: t) v.product_id = v.quantity + vQtyOf t v.product_id := by
        simp [vQtyOf]
      rw [this]
      congr 1
      push_cast
      ring
    · have h1 := stockOf_decrementStock_other st v pid (fun he => hv he.symm)
      have h2 := ih (decrementStock st v) s (h1.trans h)
      rw [h2]
      have : vQtyOf (v :: t) pid = vQtyOf t pid := by
        simp [vQtyOf, hv]
      rw [this]

theorem stockOf_restoreStock_same (st : St) (it : OrderItem) {s : Int}
    (h : stockOf st it.product_id = some s) :
    stockOf (restoreStock st it) it.product_id = some (s + (it.quantity : Int)) := by
  obtain ⟨p, hp, hps⟩ := stockOf_some_findProduct h
  unfold restoreStock
  simp only [hp, hps]
  exact stockOf_setStock_same st it.product_id _ (by rw [hp]; exact fun hc => by cases hc)

theorem stockOf_restoreStock_other (st : St) (it : OrderItem) (pid : Nat)
    (h : pid ≠ it.product_id) :
    stockOf (restoreStock st it) pid = stockOf st pid := by
  unfold restoreStock
  split
  · split
    · exact stockOf_setStock_other st it.product_id pid _ h
    · rfl
  · rfl

theorem stockOf_restoreStocks (pid : Nat) :
    ∀ (items : List OrderItem) (st : St) (s : Int),
      stockOf st pid = some s →
      stockOf (restoreStocks st items) pid = some (s + (itemQtyOf items pid : Int)) := by
  intro items
  induction items with
  | nil =>
    intro st s h
    simpa [restoreStocks, itemQtyOf] using h
  | cons it t ih =>
    intro st s h
    show stockOf (restoreStocks (restoreStock st it) t) pid = _
    by_cases hv : it.product_id = pid
    · subst hv
      have h1 := stockOf_restoreStock_same st it h
      have h2 := ih (restoreStock st it) _ h1
      rw [h2]
      have : itemQtyOf (it :: t) it.product_id = it.quantity + itemQtyOf t it.product_id := by
        simp [itemQtyOf]
      rw [this]
      congr 1
      push_cast
      ring
    · have h1 := stockOf_restoreStock_other st it pid (fun he => hv he.symm)
      have h2 := ih (restoreStock st it) s (h1.trans h)
      rw [h2]
      have : itemQtyOf (it :: t) pid = itemQtyOf t pid := by
        simp [itemQtyOf, hv]
      rw [this]

theorem itemQtyOf_mkRows (oid : Nat) (vitems : List VItem) (pid : Nat) :
    itemQtyOf (mkRows oid vitems) pid = vQtyOf vitems pid := by
  induction vitems with
  | nil => rfl
  | cons v t ih =>
    show (if v.product_id == pid then v.quantity else 0) + itemQtyOf (mkRows oid t) pid = _
    rw [ih]
    rfl

theorem createOrder_ok_inv {now : Rat} {input : CreateOrderInput} {st st1 : St} {o : Order}
    (h : createOrder now input st = (st1, .ok o)) :
    ∃ u totalAmount vitems discountAmount couponId,
      findUser st input.user_id = some u ∧
      validateItems st input.items = .ok (totalAmount, vitems) ∧
      couponPhase st now input.coupon_code totalAmount = .ok (discountAmount, couponId) ∧
      vitems ≠ [] ∧
      o = mkOrder st input totalAmount discountAmount couponId ∧
      st1 = decrementStocks
              (match couponId with
               | some cid => incrementCouponUsage
                   (insertOrderItems (insertOrder st o) (mkRows st.nextOrderId vitems)) cid
               | none => insertOrderItems (insertOrder st o) (mkRows st.nextOrderId vitems))
              vitems := by
  unfold createOrder at h
  cases hu : findUser st input.user_id with
  | none =>
    rw [hu] at h
    exact absurd ((Prod.ext_iff).mp h).2 (by simp)
  | some u =>
    rw [hu] at h
    cases hval : validateItems st input.items with
    | error e =>
      rw [hval] at h
      exact absurd ((Prod.ext_iff).mp h).2 (by simp)
    | ok p =>
      obtain ⟨ta, vitems⟩ := p
      rw [hval] at h
      dsimp only at h
      cases hcp : couponPhase st now input.coupon_code ta with
      | error e =>
        rw [hcp] at h
        exact absurd ((Prod.ext_iff).mp h).2 (by simp)
      | ok q =>
        obtain ⟨d, cid⟩ := q
        rw [hcp] at h
        dsimp only at h
        by_cases hne : vitems.isEmpty
        · rw [if_pos hne] at h
          exact absurd ((Prod.ext_iff).mp h).2 (by simp)
        · rw [if_neg hne] at h
          rw [Prod.mk.injEq] at h
          obtain ⟨hst, ho⟩ := h
          injection ho with ho'
          subst ho'
          exact ⟨u, ta, vitems, d, cid, rfl, rfl, hcp,
            by simpa using hne, rfl, hst.symm⟩

theorem createOrder_error_coupons {now : Rat} {input : CreateOrderInput} {st st1 : St}
    {e : OrderError} (h : createOrder now input st = (st1, .error e)) :
    st1.coupons = st.coupons := by
  unfold createOrder at h
  cases hu : findUser st input.user_id with
  | none =>
    rw [hu] at h
    dsimp only at h
    rw [Prod.mk.injEq] at h
    rw [← h.1]
  | some u =>
    rw [hu] at h
    cases hval : validateItems st input.items with
    | error e2 =>
      rw [hval] at h
      dsimp only at h
      rw [Prod.mk.injEq] at h
      rw [← h.1]
    | ok p =>
      obtain ⟨ta, vitems⟩ := p
      rw [hval] at h
      dsimp only at h
      cases hcp : couponPhase st now input.coupon_code ta with
      | error e2 =>
        rw [hcp] at h
        dsimp only at h
        rw [Prod.mk.injEq] at h
        rw [← h.1]
      | ok q =>
        obtain ⟨d, cid⟩ := q
        rw [hcp] at h
        dsimp only at h
        by_cases hne : vitems.isEmpty
        · rw [if_pos hne] at h
          rw [Prod.mk.injEq] at h
          rw [← h.1]
          rfl
        · rw [if_neg hne] at h
          exact absurd ((Prod.ext_iff).mp h).2 (by simp)

theorem usedCountOf_coupons_eq {st st' : St} (h : st.coupons = st'.coupons) (cid : Nat) :
    usedCountOf st cid = usedCountOf st' cid := by
  unfold usedCountOf
  rw [h]

theorem usedCountOf_increment (st : St) (cid : Nat) :
    usedCountOf (incrementCouponUsage st cid) cid = (usedCountOf st cid).map (· + 1) := by
  unfold usedCountOf incrementCouponUsage
  dsimp only
  rw [find?_map_pres _ _ (fun c => by by_cases hc : c.id == cid <;> simp [hc])]
  cases hfind : st.coupons.find? (fun c => c.id == cid) with
  | none => rfl
  | some c =>
    have hc : c.id = cid := by simpa using List.find?_some hfind
    simp [hc]

theorem applyCoupon_ok_inv {st : St} {now : Rat} {code : String} {total d : Money} {cid : Nat}
    (h : applyCoupon st now code total = .ok (d, cid)) :
    ∃ c, findActiveCoupon st code = some c ∧ c.id = cid ∧
      couponExpiredCheck now c.expires_at = false ∧
      usageExceeded c.usage_limit c.used_count = false ∧
      belowMinimum c.minimum_order_amount total = false ∧
      d = (if couponBase c.ctype c.value total > total then total
           else couponBase c.ctype c.value total) := by
  unfold applyCoupon at h
  cases hf : findActiveCoupon st code with
  | none => rw [hf] at h; cases h
  | some c =>
    rw [hf] at h
    dsimp only at h
    by_cases h1 : couponExpiredCheck now c.expires_at
    · rw [if_pos h1] at h; cases h
    · rw [if_neg h1] at h
      by_cases h2 : usageExceeded c.usage_limit c.used_count
      · rw [if_pos h2] at h; cases h
      · rw [if_neg h2] at h
        by_cases h3 : belowMinimum c.minimum_order_amount total
        · rw [if_pos h3] at h; cases h
        · rw [if_neg h3] at h
          injection h with h4
          rw [Prod.mk.injEq] at h4
          exact ⟨c, rfl, h4.2, by simpa using h1, by simpa using h2,
            by simpa using h3, h4.1.symm⟩

theorem couponPhase_some_inv {st : St} {now : Rat} {codeOpt : Option String}
    {total d : Money} {cid : Nat}
    (h : couponPhase st now codeOpt total = .ok (d, some cid)) :
    ∃ code, codeOpt = some code ∧ code ≠ "" ∧
      applyCoupon st now code total = .ok (d, cid) := by
  unfold couponPhase at h
  cases codeOpt with
  | none => cases h
  | some code =>
    dsimp only at h
    by_cases hc : code = ""
    · rw [if_pos hc] at h; cases h
    · rw [if_neg hc] at h
      cases ha : applyCoupon st now code total with
      | error e => rw [ha] at h; cases h
      | ok q =>
        obtain ⟨d2, cid2⟩ := q
        rw [ha] at h
        injection h with h4
        rw [Prod.mk.injEq] at h4
        obtain ⟨hd, hcid⟩ := h4
        injection hcid with hcid
        exact ⟨code, rfl, hc, by rw [← hd, ← hcid]; exact ha⟩

theorem validateItems_ok_qty {st : St} :
    ∀ {items : List OrderItemInput} {t : Money} {vs : List VItem},
      validateItems st items = .ok (t, vs) → ∀ pid, vQtyOf vs pid = qtyOf items pid := by
  intro items
  induction items with
  | nil =>
    intro t vs h pid
    unfold validateItems at h
    injection h with h
    rw [Prod.mk.injEq] at h
    rw [← h.2]
    rfl
  | cons i rest ih =>
    intro t vs h pid
    unfold validateItems at h
    cases hfp : findActiveProduct st i.product_id with
    | none => rw [hfp] at h; cases h
    | some p =>
      rw [hfp] at h
      dsimp only at h
      by_cases h1 : |p.price - i.price| > 1 / 100
      · rw [if_pos h1] at h; cases h
      · rw [if_neg h1] at h
        by_cases h2 : stockShort p.stock_quantity i.quantity
        · rw [if_pos h2] at h; cases h
        · rw [if_neg h2] at h
          cases hrest : validateItems st rest with
          | error e => rw [hrest] at h; cases h
          | ok q =>
            obtain ⟨t2, vs2⟩ := q
            rw [hrest] at h
            injection h with h
            rw [Prod.mk.injEq] at h
            rw [← h.2]
            show (if i.product_id == pid then i.quantity else 0) + vQtyOf vs2 pid = _
            rw [ih hrest pid]
            rfl

theorem validateItems_total_nonneg {st : St} :
    ∀ {items : List OrderItemInput} {t : Money} {vs : List VItem},
      validateItems st items = .ok (t, vs) → (∀ i ∈ items, 0 ≤ i.price) → 0 ≤ t := by
  intro items
  induction items with
  | nil =>
    intro t vs h _
    unfold validateItems at h
    injection h with h
    rw [Prod.mk.injEq] at h
    rw [← h.1]
  | cons i rest ih =>
    intro t vs h hp
    unfold validateItems at h
    cases hfp : findActiveProduct st i.product_id with
    | none => rw [hfp] at h; cases h
    | some p =>
      rw [hfp] at h
      dsimp only at h
      by_cases h1 : |p.price - i.price| > 1 / 100
      · rw [if_pos h1] at h; cases h
      · rw [if_neg h1] at h
        by_cases h2 : stockShort p.stock_quantity i.quantity
        · rw [if_pos h2] at h; cases h
        · rw [if_neg h2] at h
          cases hrest : validateItems st rest with
          | error e => rw [hrest] at h; cases h
          | ok q =>
            obtain ⟨t2, vs2⟩ := q
            rw [hrest] at h
            injection h with h
            rw [Prod.mk.injEq] at h
            rw [← h.1]
            have hpi : 0 ≤ i.price := hp i (by simp)
            have ht2 : 0 ≤ t2 := ih hrest (fun j hj => hp j (by simp [hj]))
            have hq : (0 : Money) ≤ (i.quantity : Money) := by positivity
            nlinarith

theorem validateItems_error_iff (st : St) :
    ∀ (items : List OrderItemInput) (e : OrderError),
      validateItems st items = .error e ↔ firstViolation st items = some e := by
  intro items
  induction items with
  | nil =>
    intro e
    constructor
    · intro h; cases h
    · intro h; cases h
  | cons i rest ih =>
    intro e
    unfold validateItems firstViolation specItemError
    cases hfp : findActiveProduct st i.product_id with
    | none =>
      constructor
      · intro h; injection h with h; rw [h]
      · intro h; injection h with h; rw [h]
    | some p =>
      dsimp only
      by_cases h1 : |p.price - i.price| > 1 / 100
      · rw [if_pos h1, if_pos h1]
        constructor
        · intro h; injection h with h; rw [h]
        · intro h; injection h with h; rw [h]
      · rw [if_neg h1, if_neg h1]
        have hstock : (match p.stock_quantity with
            | some s => if (i.quantity : Int) ≤ s then none else some (OrderError.insufficientStock i.product_id)
            | none => none) =
            (if stockShort p.stock_quantity i.quantity then some (OrderError.insufficientStock i.product_id)
             else none) := by
          cases hs : p.stock_quantity with
          | none => simp [stockShort]
          | some s =>
            dsimp only
            by_cases hq : (i.quantity : Int) ≤ s
            · rw [if_pos hq, if_neg (by simp [stockShort]; omega)]
            · rw [if_neg hq, if_pos (by simp [stockShort]; omega)]
        rw [hstock]
        by_cases h2 : stockShort p.stock_quantity i.quantity
        · rw [if_pos h2, if_pos h2]
          constructor
          · intro h; injection h with h; rw [h]
          · intro h; injection h with h; rw [h]
        · rw [if_neg h2, if_neg h2]
          cases hrest : validateItems st rest with
          | error e2 =>
            have hfv : firstViolation st rest = some e2 := (ih e2).mp hrest
            rw [hfv]
            constructor
            · intro h; injection h with h; rw [h]
            · intro h; injection h with h; rw [h]
          | ok q =>
            obtain ⟨t2, vs2⟩ := q
            constructor
            · intro h; cases h
            · intro h
              exact absurd ((ih e).mpr h) (by rw [hrest]; intro hc; cases hc)

theorem clamp_eq_min (a b : Money) : (if a > b then b else a) = min a b := by
  rcases le_or_lt a b with h | h
  · rw [if_neg (not_lt.mpr h), min_eq_left h]
  · rw [if_pos h, min_eq_right h.le]

theorem cancelOrder_ok_inv {id : Nat} {userId : Option Nat} {st st2 : St} {o2 : Order}
    (h : cancelOrder id userId st = (st2, .ok o2)) :
    ∃ current, st.orders.find? (cancelMatches id userId) = some current ∧
      ¬(current.status = .completed ∨ current.status = .refunded) ∧
      current.status ≠ .cancelled ∧
      o2 = { current with status := .cancelled } ∧
      st2 = restoreStocks (cancelFlip id userId st)
              (st.orderItems.filter (fun it => it.order_id == id)) := by
  unfold cancelOrder at h
  cases hf : st.orders.find? (cancelMatches id userId) with
  | none =>
    rw [hf] at h
    exact absurd ((Prod.ext_iff).mp h).2 (by simp)
  | some current =>
    rw [hf] at h
    dsimp only at h
    by_cases h1 : current.status = .completed ∨ current.status = .refunded
    · rw [if_pos h1] at h
      exact absurd ((Prod.ext_iff).mp h).2 (by simp)
    · rw [if_neg h1] at h
      by_cases h2 : current.status = .cancelled
      · rw [if_pos h2] at h
        exact absurd ((Prod.ext_iff).mp h).2 (by simp)
      · rw [if_neg h2] at h
        rw [Prod.mk.injEq] at h
        obtain ⟨hst, ho⟩ := h
        injection ho with ho'
        exact ⟨current, rfl, h1, h2, ho'.symm, hst.symm⟩

theorem cancelMatches_flip (id : Nat) (userId : Option Nat) (a : Order) :
    cancelMatches id userId
      (if cancelMatches id userId a then { a with status := OrderStatus.cancelled } else a) =
    cancelMatches id userId a := by
  by_cases hc : cancelMatches id userId a
  · rw [if_pos hc, hc]
    cases userId <;> simp_all [cancelMatches]
  · rw [if_neg hc]

theorem specUsage_eq_usage_of_wf {c : Coupon} (h : c.usage_limit ≠ some 0) :
    specUsageExceeded c.usage_limit c.used_count =
    usageExceeded c.usage_limit c.used_count := by
  cases hl : c.usage_limit with
  | none => rfl
  | some l =>
    have hl0 : l ≠ 0 := fun h0 => h (by rw [hl, h0])
    simp [specUsageExceeded, usageExceeded, hl0]

theorem usage_imp_spec {lim : Option Nat} {used : Nat}
    (h : usageExceeded lim used = true) : specUsageExceeded lim used = true := by
  cases lim with
  | none => cases h
  | some l =>
    simp [usageExceeded] at h
    simp [specUsageExceeded, h.2]

/-- Claim C1: if any validation step of `createOrder` fails (user not found;
product missing or inactive; price mismatch; insufficient stock; or any
coupon check failing), the corresponding error is raised and the store is
completely unchanged: no order or order-item row is persisted, no stock is
decremented, and no coupon used_count is incremented. -/
theorem createOrder_validation_error_leaves_state (now : Rat) (input : CreateOrderInput) (st st' : St) (e : OrderError)
    (h : createOrder now input st = (st', .error e))
    (hv : isValidationError e = true) : st' = st := by
  unfold createOrder at h
  split at h
  · exact ((Prod.ext_iff).mp h).1.symm
  · split at h
    · exact ((Prod.ext_iff).mp h).1.symm
    · split at h
      · exact ((Prod.ext_iff).mp h).1.symm
      · dsimp only at h
        split at h
        · have he : e = .emptyValuesInsert := by
            have := ((Prod.ext_iff).mp h).2
            exact (Except.error.injEq _ _ ▸ this).symm
          rw [he] at hv
          simp [isValidationError] at hv
        · have := ((Prod.ext_iff).mp h).2
          simp at this

/-- Witness for claim C1 at a concrete failing input. -/
theorem createOrder_validation_error_leaves_state_witness :
    (createOrder 0 ⟨1, [], none⟩ ⟨[], [], [], [], [], 1⟩).1 = ⟨[], [], [], [], [], 1⟩ :=
  createOrder_validation_error_leaves_state 0 ⟨1, [], none⟩ ⟨[], [], [], [], [], 1⟩ _ .userNotFound rfl rfl

/-- Claim C2 counterexample: with a valid percentage coupon of value 200 on
a total of 10, `createOrder` computes discount_amount = 10 (clamped to the
total), not total times v over 100 = 20, so the unclamped percentage
formula of the claim is false on the code. -/
theorem createOrder_percentage_discount_unclamped_cex :
    (createOrder 0 ⟨1, [⟨1, 1, 10⟩], some "BIG"⟩
        ⟨[1], [⟨1, 10, true, none⟩],
         [⟨1, "BIG", .percentage, 200, none, none, 0, true, none⟩], [], [], 1⟩).2 =
      .ok ⟨1, 1, 10, 10, 0, some 1, .pending, .pending⟩ ∧
    (10 : Money) ≠ 10 * 200 / 100 := by
  constructor
  · norm_num [createOrder, findUser, validateItems, findActiveProduct, couponPhase,
      applyCoupon, findActiveCoupon, couponBase, usageExceeded, couponExpiredCheck,
      belowMinimum, stockShort, insertOrder, insertOrderItems, incrementCouponUsage,
      decrementStocks, decrementStock, findProduct, setStock, List.find?,
      (show ("BIG" : String) ≠ "" by decide)]
  · norm_num

/-- Claim C2 (amended): the discount computed by `createOrder` equals the
reference function with the percentage discount also clamped at the total:
no coupon gives 0 and final = total; a valid percentage coupon of value v
gives min(total times v over 100, total); a valid fixed_amount coupon of
value v gives min(v, total); and in every case (item prices nonnegative,
as the input schema requires) discount is at most the total and
final = total minus discount is never negative. -/
theorem createOrder_discount_reference_clamped (now : Rat) (input : CreateOrderInput) (st st1 : St) (o : Order)
    (hprices : ∀ i ∈ input.items, 0 ≤ i.price)
    (h : createOrder now input st = (st1, .ok o)) :
    (input.coupon_code = none → o.discount_amount = 0 ∧ o.final_amount = o.total_amount) ∧
    (∀ code c, input.coupon_code = some code → code ≠ "" →
       findActiveCoupon st code = some c →
       o.discount_amount = referenceDiscount c.ctype c.value o.total_amount) ∧
    o.discount_amount ≤ o.total_amount ∧
    o.final_amount = o.total_amount - o.discount_amount ∧
    0 ≤ o.final_amount := by
  obtain ⟨u, ta, vitems, d, cid, hu, hval, hcp, hne, ho, hst1⟩ := createOrder_ok_inv h
  subst ho
  have hta : 0 ≤ ta := validateItems_total_nonneg hval hprices
  have hdle : d ≤ ta := by
    unfold couponPhase at hcp
    cases hcc : input.coupon_code with
    | none =>
      rw [hcc] at hcp
      injection hcp with h2
      rw [Prod.mk.injEq] at h2
      rw [← h2.1]
      exact hta
    | some code =>
      rw [hcc] at hcp
      dsimp only at hcp
      by_cases hce : code = ""
      · rw [if_pos hce] at hcp
        injection hcp with h2
        rw [Prod.mk.injEq] at h2
        rw [← h2.1]
        exact hta
      · rw [if_neg hce] at hcp
        cases happ : applyCoupon st now code ta with
        | error e => rw [happ] at hcp; cases hcp
        | ok q =>
          obtain ⟨d2, cid2⟩ := q
          rw [happ] at hcp
          injection hcp with h2
          rw [Prod.mk.injEq] at h2
          obtain ⟨c3, _, _, _, _, _, hd2⟩ := applyCoupon_ok_inv happ
          rw [← h2.1, hd2, clamp_eq_min]
          exact min_le_right _ _
  refine ⟨?_, ?_, hdle, rfl, ?_⟩
  · intro hnone
    rw [hnone] at hcp
    unfold couponPhase at hcp
    injection hcp with h2
    rw [Prod.mk.injEq] at h2
    constructor
    · show d = 0
      rw [← h2.1]
    · show ta - d = ta
      rw [← h2.1]
      ring
  · intro code c hcode hcne hfc
    rw [hcode] at hcp
    unfold couponPhase at hcp
    dsimp only at hcp
    rw [if_neg hcne] at hcp
    cases happ : applyCoupon st now code ta with
    | error e => rw [happ] at hcp; cases hcp
    | ok q =>
      obtain ⟨d2, cid2⟩ := q
      rw [happ] at hcp
      injection hcp with h2
      rw [Prod.mk.injEq] at h2
      obtain ⟨c3, hfc3, _, _, _, _, hd2⟩ := applyCoupon_ok_inv happ
      have hc3 : c3 = c := by
        rw [hfc] at hfc3
        injection hfc3 with h5
        exact h5.symm
      show d = referenceDiscount c.ctype c.value ta
      rw [← h2.1, hd2, clamp_eq_min, hc3]
      cases c.ctype <;> rfl
  · show (0 : Money) ≤ ta - d
    linarith

/-- Witness for the amended claim C2 at a concrete successful order. -/
theorem createOrder_discount_reference_clamped_witness :
    (createOrder 0 ⟨1, [⟨1, 3, 10⟩], some "SAVE10"⟩
        ⟨[1], [⟨1, 10, true, some 5⟩],
         [⟨1, "SAVE10", .percentage, 10, some 20, some 3, 0, true, none⟩], [], [], 1⟩).2 =
      .ok ⟨1, 1, 30, 3, 27, some 1, .pending, .pending⟩ ∧
    (⟨1, 1, 30, 3, 27, some 1, .pending, .pending⟩ : Order).discount_amount ≤
      (⟨1, 1, 30, 3, 27, some 1, .pending, .pending⟩ : Order).total_amount ∧
    (⟨1, 1, 30, 3, 27, some 1, .pending, .pending⟩ : Order).final_amount =
      (⟨1, 1, 30, 3, 27, some 1, .pending, .pending⟩ : Order).total_amount -
      (⟨1, 1, 30, 3, 27, some 1, .pending, .pending⟩ : Order).discount_amount ∧
    0 ≤ (⟨1, 1, 30, 3, 27, some 1, .pending, .pending⟩ : Order).final_amount :=
  ⟨by norm_num [createOrder, findUser, validateItems, findActiveProduct, couponPhase,
      applyCoupon, findActiveCoupon, couponBase, usageExceeded, couponExpiredCheck,
      belowMinimum, stockShort, insertOrder, insertOrderItems, incrementCouponUsage,
      decrementStocks, decrementStock, findProduct, setStock, List.find?,
      (show ("SAVE10" : String) ≠ "" by decide)],
   (createOrder_discount_reference_clamped 0 ⟨1, [⟨1, 3, 10⟩], some "SAVE10"⟩
      ⟨[1], [⟨1, 10, true, some 5⟩],
       [⟨1, "SAVE10", .percentage, 10, some 20, some 3, 0, true, none⟩], [], [], 1⟩
      ⟨[1], [⟨1, 10, true, some 2⟩],
       [⟨1, "SAVE10", .percentage, 10, some 20, some 3, 1, true, none⟩],
       [⟨1, 1, 30, 3, 27, some 1, .pending, .pending⟩],
       [⟨1, 1, 3, 10, 30⟩], 2⟩
      ⟨1, 1, 30, 3, 27, some 1, .pending, .pending⟩
      (by decide)
      (by norm_num [createOrder, findUser, validateItems, findActiveProduct, couponPhase,
        applyCoupon, findActiveCoupon, couponBase, usageExceeded, couponExpiredCheck,
        belowMinimum, stockShort, insertOrder, insertOrderItems, incrementCouponUsage,
        decrementStocks, decrementStock, findProduct, setStock, List.find?,
        (show ("SAVE10" : String) ≠ "" by decide)])).2.2⟩

/-- Claim C3: a successful `createOrder` for q units (summed over the input
lines) of a stock-tracked product with stock s leaves the stock at exactly
s - q, and a subsequent successful `cancelOrder` of that same order
restores it to exactly s. The freshness hypothesis mirrors the serial
primary key: no pre-existing order item references the order id being
allocated. -/
theorem createOrder_cancelOrder_stock_roundtrip (now : Rat) (input : CreateOrderInput) (st st1 st2 : St) (o o2 : Order)
    (pid : Nat) (s : Int)
    (hstock : stockOf st pid = some s)
    (_hq : (qtyOf input.items pid : Int) ≤ s)
    (hfresh : ∀ it ∈ st.orderItems, it.order_id ≠ st.nextOrderId)
    (hcreate : createOrder now input st = (st1, .ok o))
    (hcancel : cancelOrder o.id none st1 = (st2, .ok o2)) :
    stockOf st1 pid = some (s - (qtyOf input.items pid : Int)) ∧
    stockOf st2 pid = some s := by
  obtain ⟨u, ta, vitems, d, cid, hu, hval, hcp, hne, ho, hst1⟩ := createOrder_ok_inv hcreate
  obtain ⟨stPre, hstPre, hP, hI⟩ : ∃ stPre, st1 = decrementStocks stPre vitems ∧
      stPre.products = st.products ∧
      stPre.orderItems = st.orderItems ++ mkRows st.nextOrderId vitems := by
    refine ⟨_, hst1, ?_, ?_⟩ <;> cases cid <;> rfl
  have hq' : vQtyOf vitems pid = qtyOf input.items pid := validateItems_ok_qty hval pid
  have hsPre : stockOf stPre pid = some s := (stockOf_products_eq hP pid).trans hstock
  have h1 : stockOf st1 pid = some (s - (vQtyOf vitems pid : Int)) := by
    rw [hstPre]
    exact stockOf_decrementStocks pid vitems stPre s hsPre
  rw [hq'] at h1
  refine ⟨h1, ?_⟩
  obtain ⟨cur, hfind, hc1, hc2, ho2, hst2⟩ := cancelOrder_ok_inv hcancel
  have hoid : o.id = st.nextOrderId := by rw [ho]; rfl
  have hitems1 : st1.orderItems = st.orderItems ++ mkRows st.nextOrderId vitems := by
    rw [hstPre, decrementStocks_orderItems, hI]
  have hfilter : st1.orderItems.filter (fun it => it.order_id == o.id) =
      mkRows st.nextOrderId vitems := by
    rw [hitems1, List.filter_append]
    have hl : st.orderItems.filter (fun it => it.order_id == o.id) = [] := by
      rw [List.filter_eq_nil_iff]
      intro a ha
      simp [hoid, hfresh a ha]
    have hr : (mkRows st.nextOrderId vitems).filter (fun it => it.order_id == o.id) =
        mkRows st.nextOrderId vitems := by
      rw [List.filter_eq_self]
      intro a ha
      obtain ⟨v, hv, rfl⟩ := List.mem_map.mp ha
      simp [hoid]
    rw [hl, hr, List.nil_append]
  have hsC : stockOf (cancelFlip o.id none st1) pid =
      some (s - (qtyOf input.items pid : Int)) :=
    (stockOf_products_eq rfl pid).trans h1
  have h2 := stockOf_restoreStocks pid
    (st1.orderItems.filter (fun it => it.order_id == o.id)) (cancelFlip o.id none st1) _ hsC
  rw [hst2, h2, hfilter, itemQtyOf_mkRows, hq']
  congr 1
  ring

/-- Witness for claim C3: stock 5, quantity 2, restored to 5 on cancel. -/
theorem createOrder_cancelOrder_stock_roundtrip_witness :
    stockOf (⟨[1], [⟨1, 10, true, some 3⟩], [],
        [⟨1, 1, 20, 0, 20, none, .pending, .pending⟩],
        [⟨1, 1, 2, 10, 20⟩], 2⟩ : St) 1 =
      some (5 - (qtyOf [⟨1, 2, 10⟩] 1 : Int)) ∧
    stockOf (⟨[1], [⟨1, 10, true, some 5⟩], [],
        [⟨1, 1, 20, 0, 20, none, .cancelled, .pending⟩],
        [⟨1, 1, 2, 10, 20⟩], 2⟩ : St) 1 = some 5 :=
  createOrder_cancelOrder_stock_roundtrip 0 ⟨1, [⟨1, 2, 10⟩], none⟩
    ⟨[1], [⟨1, 10, true, some 5⟩], [], [], [], 1⟩
    ⟨[1], [⟨1, 10, true, some 3⟩], [],
     [⟨1, 1, 20, 0, 20, none, .pending, .pending⟩], [⟨1, 1, 2, 10, 20⟩], 2⟩
    ⟨[1], [⟨1, 10, true, some 5⟩], [],
     [⟨1, 1, 20, 0, 20, none, .cancelled, .pending⟩], [⟨1, 1, 2, 10, 20⟩], 2⟩
    ⟨1, 1, 20, 0, 20, none, .pending, .pending⟩
    ⟨1, 1, 20, 0, 20, none, .cancelled, .pending⟩
    1 5 (by decide) (by decide) (by decide)
    (by norm_num [createOrder, findUser, validateItems, findActiveProduct, couponPhase,
      applyCoupon, findActiveCoupon, couponBase, usageExceeded, couponExpiredCheck,
      belowMinimum, stockShort, insertOrder, insertOrderItems, incrementCouponUsage,
      decrementStocks, decrementStock, findProduct, setStock, List.find?])
    (by norm_num [cancelOrder, cancelMatches, cancelFlip, restoreStocks, restoreStock,
      findProduct, setStock, List.find?, List.filter,
      (show ¬(OrderStatus.pending = OrderStatus.completed ∨
        OrderStatus.pending = OrderStatus.refunded) by decide),
      (show OrderStatus.pending ≠ OrderStatus.cancelled by decide)])

/-- Claim C4: `cancelOrder` succeeds only from pending or processing — on a
completed or refunded order it fails with the dedicated error, on an
already-cancelled order with a distinct error, and cancelling the same
order twice always fails the second time; on every such failure the
returned state is exactly the input state (status and stocks unchanged). -/
theorem cancelOrder_terminal_status_guards (id : Nat) (uid : Option Nat) (st : St) :
    (∀ o, st.orders.find? (cancelMatches id uid) = some o →
      ((o.status = .completed ∨ o.status = .refunded) →
        cancelOrder id uid st = (st, .error .cannotCancelCompletedOrRefunded)) ∧
      (o.status = .cancelled →
        cancelOrder id uid st = (st, .error .orderAlreadyCancelled))) ∧
    (∀ st1 o, cancelOrder id uid st = (st1, .ok o) →
      cancelOrder id uid st1 = (st1, .error .orderAlreadyCancelled)) := by
  constructor
  · intro o hfind
    constructor
    · intro hs
      unfold cancelOrder
      rw [hfind]
      dsimp only
      rw [if_pos hs]
    · intro hs
      unfold cancelOrder
      rw [hfind]
      dsimp only
      rw [if_neg (by rw [hs]; rintro (h | h) <;> cases h), if_pos hs]
  · intro st1 o h
    obtain ⟨cur, hfind, hc1, hc2, ho, hst1⟩ := cancelOrder_ok_inv h
    have horders : st1.orders = (cancelFlip id uid st).orders := by
      rw [hst1, restoreStocks_orders]
    have hfind1 : st1.orders.find? (cancelMatches id uid) =
        some { cur with status := OrderStatus.cancelled } := by
      rw [horders]
      show (st.orders.map _).find? _ = _
      rw [find?_map_pres _ _ (cancelMatches_flip id uid), hfind]
      have hcur : cancelMatches id uid cur = true := List.find?_some hfind
      show some (if cancelMatches id uid cur = true then _ else cur) = _
      rw [if_pos hcur]
    unfold cancelOrder
    rw [hfind1]
    dsimp only
    rw [if_neg (by rintro (h | h) <;> cases h), if_pos rfl]

/-- Witness for claim C4: a completed order, and a double cancellation. -/
theorem cancelOrder_terminal_status_guards_witness :
    cancelOrder 1 none ⟨[5], [], [], [⟨1, 5, 10, 0, 10, none, .completed, .pending⟩], [], 2⟩ =
      (⟨[5], [], [], [⟨1, 5, 10, 0, 10, none, .completed, .pending⟩], [], 2⟩,
       .error .cannotCancelCompletedOrRefunded) ∧
    cancelOrder 1 none
        (⟨[5], [], [], [⟨1, 5, 10, 0, 10, none, .cancelled, .pending⟩], [], 2⟩ : St) =
      ((⟨[5], [], [], [⟨1, 5, 10, 0, 10, none, .cancelled, .pending⟩], [], 2⟩ : St),
       .error .orderAlreadyCancelled) :=
  ⟨((cancelOrder_terminal_status_guards 1 none ⟨[5], [], [], [⟨1, 5, 10, 0, 10, none, .completed, .pending⟩], [], 2⟩).1
      ⟨1, 5, 10, 0, 10, none, .completed, .pending⟩ rfl).1 (Or.inl rfl),
   (cancelOrder_terminal_status_guards 1 none ⟨[5], [], [], [⟨1, 5, 10, 0, 10, none, .pending, .pending⟩], [], 2⟩).2
      ⟨[5], [], [], [⟨1, 5, 10, 0, 10, none, .cancelled, .pending⟩], [], 2⟩
      ⟨1, 5, 10, 0, 10, none, .cancelled, .pending⟩
      (by norm_num [cancelOrder, cancelMatches, cancelFlip, restoreStocks, restoreStock,
        findProduct, setStock, List.find?, List.filter,
        (show ¬(OrderStatus.pending = OrderStatus.completed ∨
          OrderStatus.pending = OrderStatus.refunded) by decide),
        (show OrderStatus.pending ≠ OrderStatus.cancelled by decide)])⟩

/-- Claim C5: the spec-modelled `validateCoupon` (the source body is a
placeholder declaration) agrees with the coupon branch of `createOrder`
(`applyCoupon`): it reports valid with the same discount exactly when
`createOrder` would accept that coupon at that total, for coupon rows
obeying the repository schema (usage_limit positive when set). -/
theorem validateCoupon_agrees_with_applyCoupon (st : St) (now : Rat) (code : String) (amount : Money)
    (hwf : ∀ c ∈ st.coupons, c.usage_limit ≠ some 0) :
    (∀ d cid, applyCoupon st now code amount = .ok (d, cid) →
       (validateCoupon st now code amount).valid = true ∧
       (validateCoupon st now code amount).discount = some d ∧
       (validateCoupon st now code amount).coupon = findActiveCoupon st code) ∧
    (∀ e, applyCoupon st now code amount = .error e →
       (validateCoupon st now code amount).valid = false) := by
  constructor
  · intro d cid h
    obtain ⟨c, hf, hcid, hexp, huse, hmin, hd⟩ := applyCoupon_ok_inv h
    have hmem : c ∈ st.coupons := List.mem_of_find?_eq_some hf
    unfold validateCoupon
    rw [hf]
    dsimp only
    rw [if_neg (by simp [hexp]),
      if_neg (by rw [specUsage_eq_usage_of_wf (hwf c hmem)]; simp [huse]),
      if_neg (by simp [hmin])]
    refine ⟨rfl, ?_, rfl⟩
    show some (min (couponBase c.ctype c.value amount) amount) = some d
    rw [hd, clamp_eq_min]
  · intro e h
    unfold validateCoupon
    unfold applyCoupon at h
    cases hf : findActiveCoupon st code with
    | none => rfl
    | some c =>
      rw [hf] at h
      dsimp only at h
      dsimp only
      by_cases h1 : couponExpiredCheck now c.expires_at
      · rw [if_pos h1]
      · rw [if_neg h1]
        rw [if_neg h1] at h
        by_cases h2 : usageExceeded c.usage_limit c.used_count
        · rw [if_pos (usage_imp_spec h2)]
        · rw [if_neg h2] at h
          rw [if_neg (by rw [specUsage_eq_usage_of_wf
                (hwf c (List.mem_of_find?_eq_some hf))]; simp [h2])]
          by_cases h3 : belowMinimum c.minimum_order_amount amount
          · rw [if_pos h3]
          · rw [if_neg h3] at h
            cases h

/-- Witness for claim C5 on the SAVE10 coupon at order amount 30. -/
theorem validateCoupon_agrees_with_applyCoupon_witness :
    (validateCoupon ⟨[1], [], [⟨1, "SAVE10", .percentage, 10, some 20, some 3, 0, true, none⟩],
        [], [], 1⟩ 0 "SAVE10" 30).valid = true ∧
    (validateCoupon ⟨[1], [], [⟨1, "SAVE10", .percentage, 10, some 20, some 3, 0, true, none⟩],
        [], [], 1⟩ 0 "SAVE10" 30).discount = some 3 ∧
    (validateCoupon ⟨[1], [], [⟨1, "SAVE10", .percentage, 10, some 20, some 3, 0, true, none⟩],
        [], [], 1⟩ 0 "SAVE10" 30).coupon =
      findActiveCoupon ⟨[1], [], [⟨1, "SAVE10", .percentage, 10, some 20, some 3, 0, true, none⟩],
        [], [], 1⟩ "SAVE10" :=
  (validateCoupon_agrees_with_applyCoupon ⟨[1], [], [⟨1, "SAVE10", .percentage, 10, some 20, some 3, 0, true, none⟩],
      [], [], 1⟩ 0 "SAVE10" 30 (by decide)).1 3 1
    (by norm_num [applyCoupon, findActiveCoupon, couponBase, usageExceeded,
      couponExpiredCheck, belowMinimum, List.find?])

/-- Claim C6: `createOrder` validates fail-fast in the specified order —
user existence first, then each item line in input order with (a) the
product exists and is active, (b) the client price matches within an
absolute 0.01 tolerance, (c) a non-null stock covers the quantity — and
the first violated check determines the error raised. -/
theorem createOrder_first_violation_wins (now : Rat) (input : CreateOrderInput) (st : St) :
    (findUser st input.user_id = none →
      createOrder now input st = (st, .error .userNotFound)) ∧
    (∀ u, findUser st input.user_id = some u →
      ∀ e, firstViolation st input.items = some e →
        createOrder now input st = (st, .error e)) := by
  constructor
  · intro h
    unfold createOrder
    rw [h]
  · intro u hu e he
    unfold createOrder
    rw [hu]
    rw [(validateItems_error_iff st input.items e).mpr he]

/-- Witness for claim C6: a missing product is the first violation. -/
theorem createOrder_first_violation_wins_witness :
    createOrder 0 ⟨1, [⟨2, 1, 10⟩], none⟩ ⟨[1], [⟨1, 10, true, some 5⟩], [], [], [], 1⟩ =
      (⟨[1], [⟨1, 10, true, some 5⟩], [], [], [], 1⟩, .error (.productNotFound 2)) :=
  (createOrder_first_violation_wins 0 ⟨1, [⟨2, 1, 10⟩], none⟩ ⟨[1], [⟨1, 10, true, some 5⟩], [], [], [], 1⟩).2
    1 rfl (.productNotFound 2) rfl

/-- Claim C7: a successful `createOrder` that applies a coupon increments
that coupon's used_count by exactly 1; a failed `createOrder` leaves the
coupons unchanged; a resolved coupon whose set, nonzero usage limit is
reached is rejected before persistence; and under sequential execution the
invariant used_count at most usage_limit is preserved (the nonzero-limit
hypotheses mirror createCouponInputSchema, which requires a positive
usage_limit). -/
theorem coupon_usedCount_invariants (now : Rat) (input : CreateOrderInput) (st : St) :
    (∀ st1 o cid, createOrder now input st = (st1, .ok o) → o.coupon_id = some cid →
       (usedCountOf st cid).isSome = true ∧
       usedCountOf st1 cid = (usedCountOf st cid).map (fun n => n + 1)) ∧
    (∀ st1 e, createOrder now input st = (st1, .error e) → st1.coupons = st.coupons) ∧
    (∀ code c total l, findActiveCoupon st code = some c →
       couponExpiredCheck now c.expires_at = false →
       c.usage_limit = some l → l ≠ 0 → l ≤ c.used_count →
       applyCoupon st now code total = .error .couponUsageLimitExceeded) ∧
    ((∀ c ∈ st.coupons, c.usage_limit ≠ some 0) →
     (st.coupons.map (fun c => c.id)).Nodup →
     (∀ c ∈ st.coupons, ∀ l, c.usage_limit = some l → c.used_count ≤ l) →
     ∀ st1 r, createOrder now input st = (st1, r) →
       ∀ c ∈ st1.coupons, ∀ l, c.usage_limit = some l → c.used_count ≤ l) := by
  refine ⟨?_, ?_, ?_, ?_⟩
  · intro st1 o cid hcr hcid
    obtain ⟨u, ta, vitems, d, cid2, hu, hval, hcp, hne, ho, hst1⟩ := createOrder_ok_inv hcr
    have hocid : o.coupon_id = cid2 := by rw [ho]; rfl
    rw [hocid] at hcid
    subst hcid
    obtain ⟨code, hcode, hcne, happ⟩ := couponPhase_some_inv hcp
    obtain ⟨c, hfc, hcid3, _, _, _, _⟩ := applyCoupon_ok_inv happ
    have hmem : c ∈ st.coupons := List.mem_of_find?_eq_some hfc
    constructor
    · unfold usedCountOf
      have hs : (st.coupons.find? (fun c2 => c2.id == cid)).isSome = true :=
        List.find?_isSome.mpr ⟨c, hmem, by simp [hcid3]⟩
      cases hf : st.coupons.find? (fun c2 => c2.id == cid) with
      | none => rw [hf] at hs; cases hs
      | some c2 => rfl
    · have h1 : usedCountOf st1 cid =
          usedCountOf (incrementCouponUsage
            (insertOrderItems (insertOrder st o) (mkRows st.nextOrderId vitems)) cid) cid :=
        usedCountOf_coupons_eq (by rw [hst1, decrementStocks_coupons]) cid
      rw [h1, usedCountOf_increment]
      rfl
  · intro st1 e hcr
    exact createOrder_error_coupons hcr
  · intro code c total l hfc hexp hlim hl0 hle
    unfold applyCoupon
    rw [hfc]
    dsimp only
    rw [if_neg (by simp [hexp]), if_pos (by simp [usageExceeded, hlim, hl0, hle])]
  · intro hwf hnodup hinv st1 r hcr c1 hc1 l hl
    cases r with
    | error e =>
      rw [createOrder_error_coupons hcr] at hc1
      exact hinv c1 hc1 l hl
    | ok o =>
      obtain ⟨u, ta, vitems, d, cid, hu, hval, hcp, hne, ho, hst1⟩ := createOrder_ok_inv hcr
      cases cid with
      | none =>
        have hc : st1.coupons = st.coupons := by
          rw [hst1, decrementStocks_coupons]
          rfl
        rw [hc] at hc1
        exact hinv c1 hc1 l hl
      | some cid =>
        have hc : st1.coupons = st.coupons.map (fun c2 =>
            if c2.id == cid then { c2 with used_count := c2.used_count + 1 } else c2) := by
          rw [hst1, decrementStocks_coupons]
          rfl
        rw [hc] at hc1
        obtain ⟨c2, hc2mem, hc2eq⟩ := List.mem_map.mp hc1
        by_cases hid : (c2.id == cid) = true
        · rw [if_pos hid] at hc2eq
          obtain ⟨code, hcode, hcne, happ⟩ := couponPhase_some_inv hcp
          obtain ⟨c3, hfc, hcid3, hexp, huse, hmin, hd⟩ := applyCoupon_ok_inv happ
          have hc3mem : c3 ∈ st.coupons := List.mem_of_find?_eq_some hfc
          have hc2c3 : c2 = c3 := by
            apply List.inj_on_of_nodup_map hnodup hc2mem hc3mem
            rw [hcid3]
            simpa using hid
          have hlim2 : c2.usage_limit = some l := by
            rw [← hc2eq] at hl
            exact hl
          have hl0 : l ≠ 0 := by
            intro h0
            exact hwf c2 hc2mem (by rw [hlim2, h0])
          have hlt : c2.used_count < l := by
            rw [hc2c3] at hlim2
            rw [hlim2] at huse
            simp [usageExceeded] at huse
            rw [hc2c3]
            exact huse hl0
          rw [← hc2eq]
          show c2.used_count + 1 ≤ l
          omega
        · rw [if_neg hid] at hc2eq
          rw [← hc2eq] at hl ⊢
          exact hinv c2 hc2mem l hl

/-- Witness for claim C7: SAVE10 goes from used_count 0 to 1. -/
theorem coupon_usedCount_invariants_witness :
    (usedCountOf ⟨[1], [⟨1, 10, true, some 5⟩],
        [⟨1, "SAVE10", .percentage, 10, some 20, some 3, 0, true, none⟩], [], [], 1⟩ 1).isSome
      = true ∧
    usedCountOf (⟨[1], [⟨1, 10, true, some 2⟩],
        [⟨1, "SAVE10", .percentage, 10, some 20, some 3, 1, true, none⟩],
        [⟨1, 1, 30, 3, 27, some 1, .pending, .pending⟩],
        [⟨1, 1, 3, 10, 30⟩], 2⟩ : St) 1 =
      (usedCountOf ⟨[1], [⟨1, 10, true, some 5⟩],
        [⟨1, "SAVE10", .percentage, 10, some 20, some 3, 0, true, none⟩], [], [], 1⟩ 1).map
        (fun n => n + 1) :=
  (coupon_usedCount_invariants 0 ⟨1, [⟨1, 3, 10⟩], some "SAVE10"⟩
      ⟨[1], [⟨1, 10, true, some 5⟩],
       [⟨1, "SAVE10", .percentage, 10, some 20, some 3, 0, true, none⟩], [], [], 1⟩).1
    ⟨[1], [⟨1, 10, true, some 2⟩],
     [⟨1, "SAVE10", .percentage, 10, some 20, some 3, 1, true, none⟩],
     [⟨1, 1, 30, 3, 27, some 1, .pending, .pending⟩],
     [⟨1, 1, 3, 10, 30⟩], 2⟩
    ⟨1, 1, 30, 3, 27, some 1, .pending, .pending⟩ 1
    (by norm_num [createOrder, findUser, validateItems, findActiveProduct, couponPhase,
      applyCoupon, findActiveCoupon, couponBase, usageExceeded, couponExpiredCheck,
      belowMinimum, stockShort, insertOrder, insertOrderItems, incrementCouponUsage,
      decrementStocks, decrementStock, findProduct, setStock, List.find?,
      (show ("SAVE10" : String) ≠ "" by decide)])
    rfl

/-- Claim C8 counterexample: a `cancelOrder` call that supplies user id 0
(falsy in JavaScript) skips the ownership filter: the order with id 1
owned by user 5 is found and cancelled instead of reporting the NotFound
error, so the claim as stated is false for supplied user id 0. -/
theorem cancelOrder_userId_zero_ownership_cex :
    (cancelOrder 1 (some 0) ⟨[5], [], [], [⟨1, 5, 10, 0, 10, none, .pending, .pending⟩], [], 2⟩).2 =
      .ok ⟨1, 5, 10, 0, 10, none, .cancelled, .pending⟩ ∧
    (⟨1, 5, 10, 0, 10, none, .cancelled, .pending⟩ : Order).user_id ≠ 0 ∧
    (cancelOrder 1 (some 0) ⟨[5], [], [], [⟨1, 5, 10, 0, 10, none, .pending, .pending⟩], [], 2⟩).2 ≠
      .error .orderNotFound ∧
    statusOf (cancelOrder 1 (some 0)
        ⟨[5], [], [], [⟨1, 5, 10, 0, 10, none, .pending, .pending⟩], [], 2⟩).1 1 =
      some .cancelled := by
  refine ⟨rfl, by decide, ?_, rfl⟩
  intro h
  rw [show (cancelOrder 1 (some 0)
      ⟨[5], [], [], [⟨1, 5, 10, 0, 10, none, .pending, .pending⟩], [], 2⟩).2 =
      .ok ⟨1, 5, 10, 0, 10, none, .cancelled, .pending⟩ from rfl] at h
  cases h

/-- Claim C8 (amended): for every `cancelOrder` call that supplies a
nonzero user id, an order that exists but is owned by a different user
produces a result identical to a non-existent order id: the same NotFound
error with the state unchanged. -/
theorem cancelOrder_foreign_order_notFound (st : St) (id u : Nat) (hu : u ≠ 0)
    (hother : ∀ o ∈ st.orders, o.id = id → o.user_id ≠ u) :
    cancelOrder id (some u) st = (st, .error .orderNotFound) := by
  unfold cancelOrder
  have hfind : st.orders.find? (cancelMatches id (some u)) = none := by
    rw [List.find?_eq_none]
    intro o ho
    unfold cancelMatches
    by_cases hid : o.id = id
    · have hne := hother o ho hid
      simp [hid, hu, hne]
    · simp [hid]
  rw [hfind]

/-- Witness for the amended claim C8: owner 5, caller 7, NotFound. -/
theorem cancelOrder_foreign_order_notFound_witness :
    cancelOrder 1 (some 7) ⟨[5], [], [], [⟨1, 5, 10, 0, 10, none, .pending, .pending⟩], [], 2⟩ =
      (⟨[5], [], [], [⟨1, 5, 10, 0, 10, none, .pending, .pending⟩], [], 2⟩,
       .error .orderNotFound) :=
  cancelOrder_foreign_order_notFound ⟨[5], [], [], [⟨1, 5, 10, 0, 10, none, .pending, .pending⟩], [], 2⟩ 1 7
    (by decide) (by decide)

/-- Claim C9: `updateOrderStatus` is an unconditional setter — for every
existing order any of the five statuses may be assigned regardless of the
current one (including moving a cancelled order back to pending) — and it
fails only with NotFound when no order has that id; `updatePaymentStatus`
behaves the same way for payment_status. -/
theorem updateStatus_unconditional_setters (id : Nat) (s : OrderStatus) (ps : PaymentStatus) (st : St) :
    (findOrderById st id = none →
      updateOrderStatus id s st = (st, .error .orderNotFound) ∧
      updatePaymentStatus id ps st = (st, .error .orderNotFound)) ∧
    (∀ o, findOrderById st id = some o →
      (updateOrderStatus id s st).2 = .ok { o with status := s } ∧
      statusOf (updateOrderStatus id s st).1 id = some s ∧
      (updatePaymentStatus id ps st).2 = .ok { o with payment_status := ps }) := by
  constructor
  · intro h
    constructor
    · unfold updateOrderStatus
      rw [h]
    · unfold updatePaymentStatus
      rw [h]
  · intro o h
    have hid : (o.id == id) = true := by
      simpa using List.find?_some h
    refine ⟨?_, ?_, ?_⟩
    · unfold updateOrderStatus
      rw [h]
    · unfold updateOrderStatus
      rw [h]
      dsimp only
      unfold statusOf findOrderById
      dsimp only
      rw [find?_map_pres _ _ (fun a => by by_cases ha : a.id == id <;> simp [ha])]
      unfold findOrderById at h
      rw [h]
      show some ((if o.id == id then _ else o).status) = some s
      rw [if_pos hid]
    · unfold updatePaymentStatus
      rw [h]

/-- Witness for claim C9: a cancelled order moved back to pending. -/
theorem updateStatus_unconditional_setters_witness :
    (updateOrderStatus 1 .pending
        ⟨[1], [], [], [⟨1, 1, 10, 0, 10, none, .cancelled, .pending⟩], [], 2⟩).2 =
      .ok ⟨1, 1, 10, 0, 10, none, .pending, .pending⟩ ∧
    statusOf (updateOrderStatus 1 .pending
        ⟨[1], [], [], [⟨1, 1, 10, 0, 10, none, .cancelled, .pending⟩], [], 2⟩).1 1 =
      some .pending ∧
    (updatePaymentStatus 1 .completed
        ⟨[1], [], [], [⟨1, 1, 10, 0, 10, none, .cancelled, .pending⟩], [], 2⟩).2 =
      .ok ⟨1, 1, 10, 0, 10, none, .cancelled, .completed⟩ :=
  (updateStatus_unconditional_setters 1 .pending .completed
      ⟨[1], [], [], [⟨1, 1, 10, 0, 10, none, .cancelled, .pending⟩], [], 2⟩).2
    ⟨1, 1, 10, 0, 10, none, .cancelled, .pending⟩ rfl

/-- Claim C10: `createOrder` never checks that the item list is non-empty:
with an empty items list, an existing user and no coupon code, the
per-line validation loop is skipped and the order header is persisted with
total_amount, discount_amount and final_amount all 0 before the
order-items insert is attempted; the failure at that insert (drizzle's
values() on an empty list) therefore occurs only after the order header
has already been persisted. -/
theorem createOrder_empty_items_persists_header (now : Rat) (uid : Nat) (st : St) (u : Nat)
    (h : findUser st uid = some u) :
    createOrder now { user_id := uid, items := [], coupon_code := none } st =
      (insertOrder st
        { id := st.nextOrderId, user_id := uid, total_amount := 0,
          discount_amount := 0, final_amount := 0, coupon_id := none,
          status := .pending, payment_status := .pending },
       .error .emptyValuesInsert) := by
  unfold createOrder
  rw [h]
  simp [validateItems, couponPhase]

/-- Witness for claim C10 at a concrete state with one user. -/
theorem createOrder_empty_items_persists_header_witness :
    createOrder 0 ⟨1, [], none⟩ ⟨[1], [], [], [], [], 1⟩ =
      (insertOrder ⟨[1], [], [], [], [], 1⟩
        ⟨1, 1, 0, 0, 0, none, .pending, .pending⟩, .error .emptyValuesInsert) :=
  createOrder_empty_items_persists_header 0 1 ⟨[1], [], [], [], [], 1⟩ 1 rfl

end Shop
